import Mathlib

/-!
Shallow embedding of the omnimemory ESP32 firmware
(src/apps/esp32/src/main.cpp with constants from src/apps/esp32/include/config.h).

Modelling conventions:
* Machine integers become `Nat`/`Int`; the `unsigned long` casts in the manifest
  serializer are modelled with an explicit `% 2^32`, and the `uint64`/`uint8`
  arithmetic of `free_percent` with explicit `% 2^64` / `% 256`.
* The SD card is modelled as a list of manifest documents (the parsed contents of
  `/manifests/<seq>.json`; one file per `seq`, so the store is keyed by `seq`) plus a
  list of artifact files `(path, size)`.  `write_manifest_atomic`'s tmp-write/rename
  sequence becomes a replace-or-append on that list.
* JSON (de)serialization through ArduinoJson (a third-party library) is abstracted:
  a manifest file holds exactly the eight fields the firmware writes, and
  `load_manifest` applies the firmware's `item_type`/`content_type` inference.
* Network and filesystem call outcomes (HTTP results, `mkdir`/`open`/`write`
  success, I2S reads) are oracle inputs, since they depend on the environment.
* The floating-point RMS/noise-EMA pipeline of the VAD is abstracted to oracle
  booleans (`rms_over`, `rms_under`) giving the outcome of each float comparison;
  the integer counters driven by those comparisons are modelled faithfully.
-/

/-- config.h: UPLOAD_MAX_ATTEMPTS. -/
def UPLOAD_MAX_ATTEMPTS : Int := 3

/-- config.h: UPLOAD_BACKOFF_SEC_1. -/
def UPLOAD_BACKOFF_SEC_1 : Nat := 60

/-- config.h: UPLOAD_BACKOFF_SEC_2. -/
def UPLOAD_BACKOFF_SEC_2 : Nat := 300

/-- config.h: UPLOAD_BACKOFF_SEC_3. -/
def UPLOAD_BACKOFF_SEC_3 : Nat := 1800

/-- config.h: SD_MIN_FREE_PERCENT. -/
def SD_MIN_FREE_PERCENT : Nat := 15

/-- config.h: SD_EMERGENCY_FREE_PERCENT. -/
def SD_EMERGENCY_FREE_PERCENT : Nat := 5

/-- config.h: AUDIO_SAMPLE_RATE. -/
def AUDIO_SAMPLE_RATE : Nat := 16000

/-- config.h: AUDIO_PREROLL_MS. -/
def AUDIO_PREROLL_MS : Nat := 1000

/-- config.h: AUDIO_MIN_SEC. -/
def AUDIO_MIN_SEC : Nat := 1

/-- config.h: AUDIO_MAX_SEC. -/
def AUDIO_MAX_SEC : Nat := 60

/-- config.h: AUDIO_PHOTO_CLIP_POST_MS. -/
def AUDIO_PHOTO_CLIP_POST_MS : Nat := 9000

/-- config.h: AUDIO_HEARTBEAT_DURATION_MS. -/
def AUDIO_HEARTBEAT_DURATION_MS : Nat := 3000

/-- config.h: AUDIO_HEARTBEAT_INTERVAL_MS (5 minutes). -/
def AUDIO_HEARTBEAT_INTERVAL_MS : Nat := 5 * 60 * 1000

/-- config.h: CAPTURE_INTERVAL_MS. -/
def CAPTURE_INTERVAL_MS : Nat := 30000

/-- config.h: UPLOAD_INTERVAL_MS. -/
def UPLOAD_INTERVAL_MS : Nat := 15000

/-- config.h: RETENTION_CHECK_INTERVAL_MS (1 hour). -/
def RETENTION_CHECK_INTERVAL_MS : Nat := 60 * 60 * 1000

/-- config.h: TELEMETRY_INTERVAL_MS (1 hour). -/
def TELEMETRY_INTERVAL_MS : Nat := 60 * 60 * 1000

/-- config.h: UPLOAD_BATCH_SIZE. -/
def UPLOAD_BATCH_SIZE : Nat := 5

/-- main.cpp: kAudioPrerollSamples = AUDIO_SAMPLE_RATE * AUDIO_PREROLL_MS / 1000. -/
def kAudioPrerollSamples : Nat := AUDIO_SAMPLE_RATE * AUDIO_PREROLL_MS / 1000

/-- main.cpp `ms_to_samples`: (AUDIO_SAMPLE_RATE * ms) / 1000. -/
def ms_to_samples (ms : Nat) : Nat := AUDIO_SAMPLE_RATE * ms / 1000

/-- main.cpp `adjust_start_epoch`: subtract the preroll seconds when the epoch is
large enough (`epoch > preroll_sec`), otherwise return the epoch unchanged. -/
def adjust_start_epoch (epoch : Nat) : Nat :=
  let preroll_sec := AUDIO_PREROLL_MS / 1000
  if preroll_sec = 0 then epoch
  else if epoch > preroll_sec then epoch - preroll_sec
  else epoch

/-- The parsed content of one `/manifests/<seq>.json` file: exactly the eight
fields serialized by `write_manifest_atomic` (main.cpp lines 237-246). -/
structure ManifestDoc where
  seq : Nat
  filepath : String
  captured_epoch : Nat
  status : String
  item_type : String
  content_type : String
  upload_attempts : Int
  last_attempt_epoch : Nat
deriving DecidableEq, Repr

/-- main.cpp `PendingItem` (lines 266-275), as filled in by `load_manifest`. -/
structure PendingItem where
  manifest_path : String
  filepath : String
  item_type : String
  content_type : String
  seq : Nat
  captured_epoch : Nat
  upload_attempts : Int
  last_attempt_epoch : Nat
deriving DecidableEq, Repr

/-- Path of the manifest file for a sequence number: `/manifests/<seq>.json`. -/
def manifest_path_of (seq : Nat) : String :=
  "/manifests/" ++ toString seq ++ ".json"

/-- main.cpp `load_manifest` (lines 277-315) on a parsed manifest document:
copies the eight fields and applies the two inference rules — an empty
`item_type` is inferred from the `.wav` filename suffix, and an empty
`content_type` from the (possibly inferred) `item_type`.  Returns the item
together with the manifest's `status` string (the `status_out` out-parameter). -/
def load_manifest (doc : ManifestDoc) : PendingItem × String :=
  let item_type0 :=
    if doc.item_type = "" then
      (if doc.filepath.endsWith ".wav" then "audio" else "photo")
    else doc.item_type
  let content_type0 :=
    if doc.content_type = "" then
      (if item_type0 = "audio" then "audio/wav" else "image/jpeg")
    else doc.content_type
  ({ manifest_path := manifest_path_of doc.seq
     filepath := doc.filepath
     item_type := item_type0
     content_type := content_type0
     seq := doc.seq
     captured_epoch := doc.captured_epoch
     upload_attempts := doc.upload_attempts
     last_attempt_epoch := doc.last_attempt_epoch }, doc.status)

/-- The JSON document produced by `write_manifest_atomic` (main.cpp lines
237-246) for the given field tuple.  The two epochs are serialized through a
cast to `unsigned long` (32 bits on the ESP32), hence the `% 2^32`. -/
def write_manifest_doc (seq : Nat) (filepath : String) (captured_epoch : Nat)
    (status item_type content_type : String) (upload_attempts : Int)
    (last_attempt_epoch : Nat) : ManifestDoc :=
  { seq := seq
    filepath := filepath
    captured_epoch := captured_epoch % 2 ^ 32
    status := status
    item_type := item_type
    content_type := content_type
    upload_attempts := upload_attempts
    last_attempt_epoch := last_attempt_epoch % 2 ^ 32 }

/-- Replace-or-append a manifest document in the store, keyed by `seq` (the
final path `/manifests/<seq>.json` is a function of `seq`, so the rename in
`write_manifest_atomic` replaces exactly the documents with the same `seq`). -/
def store_put (store : List ManifestDoc) (doc : ManifestDoc) : List ManifestDoc :=
  if store.any (fun d => d.seq == doc.seq) then
    store.map (fun d => if d.seq == doc.seq then doc else d)
  else
    store ++ [doc]

/-- Look up the manifest document at `/manifests/<seq>.json`. -/
def store_get (store : List ManifestDoc) (seq : Nat) : Option ManifestDoc :=
  store.find? (fun d => d.seq == seq)

/-- main.cpp `write_manifest_atomic` (lines 216-264) at the store level:
serialize the fields and atomically replace `/manifests/<seq>.json`.
(The model has the filesystem operations succeed; the firmware ignores this
function's return value at every call site the claims are about.) -/
def write_manifest_atomic (store : List ManifestDoc) (seq : Nat) (filepath : String)
    (captured_epoch : Nat) (status item_type content_type : String)
    (upload_attempts : Int) (last_attempt_epoch : Nat) : List ManifestDoc :=
  store_put store
    (write_manifest_doc seq filepath captured_epoch status item_type content_type
      upload_attempts last_attempt_epoch)

/-- main.cpp `backoff_seconds` (lines 647-652). -/
def backoff_seconds (attempts : Int) : Nat :=
  if attempts ≤ 0 then 0
  else if attempts = 1 then UPLOAD_BACKOFF_SEC_1
  else if attempts = 2 then UPLOAD_BACKOFF_SEC_2
  else UPLOAD_BACKOFF_SEC_3

/-- The backoff-eligibility test applied by `find_oldest_pending` (main.cpp
lines 689-691), negated: the item is skipped when `backoff > 0` and
`now - last_attempt_epoch < backoff`.  The C++ subtraction is on signed
`time_t`; with `backoff > 0` the truncated `Nat` subtraction used here skips
exactly the same items (a negative difference and a zero difference both
compare below a positive backoff). -/
def pending_eligible (now : Nat) (item : PendingItem) : Bool :=
  !(backoff_seconds item.upload_attempts > 0 &&
    now - item.last_attempt_epoch < backoff_seconds item.upload_attempts)

/-- The `better` comparison of `find_oldest_pending`/`find_oldest_uploaded`
(main.cpp lines 694-703 and 737-746), on the `(captured_epoch, seq)` pair of
the new item `i` and the current best `b`. -/
def older_than (iE iS bE bS : Nat) : Bool :=
  if 0 < iE && 0 < bE then decide (iE < bE)
  else if 0 < iE && bE == 0 then true
  else if iE == 0 && bE == 0 then decide (iS < bS)
  else false

/-- The candidate filter of `find_oldest_uploaded` (main.cpp lines 726-735):
parse the manifest and keep it only when its status is `UPLOADED`. -/
def uploaded_cand (doc : ManifestDoc) : Option PendingItem :=
  if (load_manifest doc).2 = "UPLOADED" then some (load_manifest doc).1 else none

/-- The candidate filter of `find_oldest_pending` (main.cpp lines 664-692):
status must be `PENDING`, `upload_attempts` must be below `UPLOAD_MAX_ATTEMPTS`
(over-limit items are garbage-collected to FAILED and skipped), and the
attempt-indexed backoff must have elapsed. -/
def pending_cand (now : Nat) (doc : ManifestDoc) : Option PendingItem :=
  if (load_manifest doc).2 ≠ "PENDING" then none
  else if UPLOAD_MAX_ATTEMPTS ≤ (load_manifest doc).1.upload_attempts then none
  else if !pending_eligible now (load_manifest doc).1 then none
  else some (load_manifest doc).1

/-- One step of the oldest-candidate scan shared by `find_oldest_pending` and
`find_oldest_uploaded`: keep the new item when there is no best yet or when it
is `older_than` the best. -/
def min_step (cand : ManifestDoc → Option PendingItem)
    (best : Option PendingItem) (doc : ManifestDoc) : Option PendingItem :=
  match cand doc with
  | none => best
  | some item =>
    match best with
    | none => some item
    | some b =>
      if older_than item.captured_epoch item.seq b.captured_epoch b.seq
      then some item else some b

/-- The store effect of visiting one manifest in the `find_oldest_pending`
loop (main.cpp lines 675-687): a PENDING manifest whose attempt count has
reached `UPLOAD_MAX_ATTEMPTS` is rewritten in place to FAILED (using the
loaded item's fields); every other manifest leaves the store untouched. -/
def fop_gc_store (s : List ManifestDoc) (doc : ManifestDoc) : List ManifestDoc :=
  let item := (load_manifest doc).1
  if (load_manifest doc).2 ≠ "PENDING" then s
  else if UPLOAD_MAX_ATTEMPTS ≤ item.upload_attempts then
    write_manifest_atomic s item.seq item.filepath item.captured_epoch "FAILED"
      item.item_type item.content_type item.upload_attempts
      item.last_attempt_epoch
  else s

/-- One iteration of the directory loop in `find_oldest_pending` (main.cpp
lines 664-711).  The loop body has two independent effects, factored here
componentwise: the best-candidate update (the guard chain reproduced by
`pending_cand` followed by the `better` comparison, i.e. `min_step`) and the
in-place FAILED rewrite of over-limit manifests (`fop_gc_store`). -/
def fop_step (now : Nat) (acc : Option PendingItem × List ManifestDoc)
    (doc : ManifestDoc) : Option PendingItem × List ManifestDoc :=
  (min_step (pending_cand now) acc.1 doc, fop_gc_store acc.2 doc)

/-- main.cpp `find_oldest_pending` (lines 654-715): scan `/manifests`, eagerly
fail over-limit PENDING items, and return the oldest eligible PENDING item
together with the (possibly rewritten) store. -/
def find_oldest_pending (sd_ok : Bool) (now : Nat) (store : List ManifestDoc) :
    Option PendingItem × List ManifestDoc :=
  if !sd_ok then (none, store)
  else store.foldl (fop_step now) (none, store)

/-- main.cpp `find_oldest_uploaded` (lines 717-758): return the oldest
UPLOADED item. -/
def find_oldest_uploaded (sd_ok : Bool) (store : List ManifestDoc) :
    Option PendingItem :=
  if !sd_ok then none
  else store.foldl (min_step uploaded_cand) none

/-- Outcomes of the three network steps of one upload attempt (HTTP and TLS
are external collaborators; each field is the success of one step given that
it is reached). -/
structure NetOracle where
  target_ok : Bool
  stream_ok : Bool
  ingest_ok : Bool
deriving DecidableEq, Repr

/-- main.cpp `request_upload_target` (lines 909-948): fails immediately when
`DEVICE_TOKEN` is empty, otherwise the HTTP round-trip outcome decides. -/
def request_upload_target (token : String) (o : NetOracle) : Bool :=
  if token = "" then false else o.target_ok

/-- main.cpp `update_manifest_status` (lines 988-999). -/
def update_manifest_status (store : List ManifestDoc) (item : PendingItem)
    (status : String) (attempts : Int) (last_attempt_epoch : Nat) :
    List ManifestDoc :=
  write_manifest_atomic store item.seq item.filepath item.captured_epoch status
    item.item_type item.content_type attempts last_attempt_epoch

/-- The shared failure branch of `upload_one_pending` (main.cpp lines
1015-1019, 1024-1028, 1033-1037): FAILED once the bumped attempt count reaches
`UPLOAD_MAX_ATTEMPTS`, PENDING otherwise. -/
def upload_fail_update (store : List ManifestDoc) (item : PendingItem)
    (attempt_epoch : Nat) : List ManifestDoc :=
  if UPLOAD_MAX_ATTEMPTS ≤ item.upload_attempts + 1 then
    update_manifest_status store item "FAILED" (item.upload_attempts + 1) attempt_epoch
  else
    update_manifest_status store item "PENDING" (item.upload_attempts + 1) attempt_epoch

/-- main.cpp `upload_one_pending` (lines 1001-1044).  `now` is the epoch used
by `find_oldest_pending`, `attempt_epoch` the one sampled at line 1009. -/
def upload_one_pending (sd_ok wifi_ok : Bool) (token : String) (o : NetOracle)
    (store : List ManifestDoc) (now attempt_epoch : Nat) :
    Bool × List ManifestDoc :=
  if !(sd_ok && wifi_ok) then (false, store)
  else
    match find_oldest_pending sd_ok now store with
    | (none, store1) => (false, store1)
    | (some item, store1) =>
      let store2 :=
        update_manifest_status store1 item "PENDING" (item.upload_attempts + 1)
          attempt_epoch
      if !request_upload_target token o then
        (false, upload_fail_update store2 item attempt_epoch)
      else if !o.stream_ok then
        (false, upload_fail_update store2 item attempt_epoch)
      else if !o.ingest_ok then
        (false, upload_fail_update store2 item attempt_epoch)
      else
        (true,
          update_manifest_status store2 item "UPLOADED" (item.upload_attempts + 1)
            attempt_epoch)

/-- main.cpp `free_percent` (lines 760-766), with the `uint64` subtraction and
multiplication wrapped at `2^64` and the final `uint8_t` cast at `256`
(faithful for `total, used < 2^64`, the range of the SD card report). -/
def free_percent (total used : Nat) : Nat :=
  if total = 0 then 0
  else ((2 ^ 64 + total - used) % 2 ^ 64 * 100 % 2 ^ 64 / total) % 256

/-- The device state: the global variables of main.cpp that the claims are
about, plus the modelled SD card contents.  `artifacts` lists the artifact
files on disk as `(path, size)`; `baseUsed` is the portion of
`SD_MMC.usedBytes()` not attributed to listed artifacts (filesystem overhead,
manifest files, the in-progress audio file). -/
structure Dev where
  sd_ok : Bool
  camera_ok : Bool
  audio_ok : Bool
  wifi_ok : Bool
  ntp_synced : Bool
  capture_paused : Bool
  seqCounter : Nat
  manifests : List ManifestDoc
  artifacts : List (String × Nat)
  totalBytes : Nat
  baseUsed : Nat
  audio_recording : Bool
  audio_filepath : String
  audio_start_epoch : Nat
  audio_seq : Nat
  audio_samples_written : Nat
  audio_force_active : Bool
  audio_force_stop_samples : Nat
  audio_photo_clip_pending : Bool
  audio_photo_clip_epoch : Nat
  audio_heartbeat_pending : Bool
  vad_over_count : Nat
  vad_under_count : Nat
  preroll_index : Nat
  preroll_filled : Bool
  last_capture : Nat
  last_upload : Nat
  last_wifi_attempt : Nat
  last_ntp_attempt : Nat
  last_retention_check : Nat
  last_telemetry : Nat
  last_audio_heartbeat : Nat
deriving DecidableEq, Repr

/-- `SD_MMC.usedBytes()` in the model: unattributed bytes plus the artifact
files. -/
def usedBytes (st : Dev) : Nat :=
  st.baseUsed + (st.artifacts.map (fun a => a.2)).sum

/-- `SD_MMC.exists` on an artifact path. -/
def art_exists (arts : List (String × Nat)) (p : String) : Bool :=
  arts.any (fun a => a.1 == p)

/-- `SD_MMC.remove` on an artifact path. -/
def art_remove (arts : List (String × Nat)) (p : String) : List (String × Nat) :=
  arts.filter (fun a => !(a.1 == p))

/-- One iteration body plus loop of `enforce_retention` (main.cpp lines
779-793), as fuel-indexed recursion: while free space is below
`SD_MIN_FREE_PERCENT`, delete the oldest UPLOADED item's artifact file (if
present) and its manifest, then recompute.  The manifest file
`/manifests/<seq>.json` is keyed by `seq`, so its removal deletes the store
entries with the item's `seq`. -/
def retention_sweep (sd_ok : Bool) : Nat → Dev → Dev
  | 0, st => st
  | fuel + 1, st =>
    if free_percent st.totalBytes (usedBytes st) < SD_MIN_FREE_PERCENT then
      match find_oldest_uploaded sd_ok st.manifests with
      | none => st
      | some item =>
        let arts :=
          if art_exists st.artifacts item.filepath then
            art_remove st.artifacts item.filepath
          else st.artifacts
        let mans := st.manifests.filter (fun d => !(d.seq == item.seq))
        retention_sweep sd_ok fuel { st with artifacts := arts, manifests := mans }
    else st

/-- main.cpp `enforce_retention` (lines 768-800).  The fuel
`st.manifests.length + 1` dominates the sweep's real exit conditions: every
iteration that recurses removes at least one manifest. -/
def enforce_retention (st : Dev) : Dev :=
  if !st.sd_ok then st
  else if SD_MIN_FREE_PERCENT ≤ free_percent st.totalBytes (usedBytes st) then
    { st with capture_paused := false }
  else
    let st1 := retention_sweep st.sd_ok (st.manifests.length + 1) st
    { st1 with
      capture_paused :=
        free_percent st1.totalBytes (usedBytes st1) < SD_EMERGENCY_FREE_PERCENT }

/-- Per-tick environment inputs of `audio_tick` and `start_audio_recording`:
the I2S read outcome, the float RMS comparisons, the filesystem call
outcomes, the wall-clock sample, and the strftime-derived path parts used
when NTP is synced. -/
structure AudioOracle where
  read_ok : Bool
  sample_count : Nat
  rms_over : Bool
  rms_under : Bool
  folder_ok : Bool
  open_ok : Bool
  first_write_ok : Bool
  frame_write_ok : Bool
  now_epoch : Nat
  synced_path : String
deriving DecidableEq, Repr

/-- main.cpp `build_audio_folder` + `build_audio_filename` (lines 161-189)
combined into the full path: without NTP the path is fully determined by the
sequence number; with NTP the strftime parts come from the oracle. -/
def build_audio_filepath (ntp_synced : Bool) (synced_path : String) (seq : Nat) :
    String :=
  if ntp_synced then synced_path
  else "/unsynced_audio" ++ "/audio_" ++ toString seq ++ ".wav"

/-- main.cpp `preroll_push` (lines 357-366) on the ring-buffer counters: the
index advances modulo `kAudioPrerollSamples` and the ring is marked filled
once the index wraps (faithful for `count ≤ kAudioPrerollSamples`, the frame
size bound). -/
def preroll_push (st : Dev) (count : Nat) : Dev :=
  if kAudioPrerollSamples = 0 then st
  else
    { st with
      preroll_index := (st.preroll_index + count) % kAudioPrerollSamples
      preroll_filled :=
        st.preroll_filled || kAudioPrerollSamples ≤ st.preroll_index + count }

/-- main.cpp `preroll_write` (lines 368-383): number of samples written from
the ring — the whole ring when filled, otherwise the head up to the index. -/
def preroll_available (st : Dev) : Nat :=
  if st.preroll_filled then kAudioPrerollSamples else st.preroll_index

/-- main.cpp `finish_audio_recording` (lines 490-522): downgrade to DROP below
`AUDIO_MIN_SEC`, keep the WAV (header rewritten to the true size) and write a
PENDING manifest on KEEP, then reset the recording state.  The in-progress
file is tracked via `audio_filepath` and only enters `artifacts` when kept. -/
def finish_audio_recording (st : Dev) (keep : Bool) : Dev :=
  if !st.audio_recording then st
  else
    let keep1 :=
      if st.audio_samples_written < AUDIO_MIN_SEC * AUDIO_SAMPLE_RATE then false
      else keep
    let st1 :=
      if !keep1 || st.audio_filepath = "" then st
      else
        { st with
          artifacts :=
            st.artifacts ++
              [(st.audio_filepath, 44 + 2 * st.audio_samples_written)]
          manifests :=
            write_manifest_atomic st.manifests st.audio_seq st.audio_filepath
              st.audio_start_epoch "PENDING" "audio" "audio/wav" 0 0 }
    { st1 with
      audio_recording := false
      audio_force_active := false
      audio_force_stop_samples := 0
      audio_samples_written := 0
      audio_filepath := ""
      vad_over_count := 0
      vad_under_count := 0 }

/-- main.cpp `start_audio_recording` (lines 524-562): allocate a sequence
number, adjust the start epoch backward by the preroll, create the folder and
file, write the placeholder header and the preroll, then the triggering
frame.  Every filesystem failure returns `false`; a failed first frame write
finishes with DROP. -/
def start_audio_recording (st : Dev) (o : AudioOracle) (count : Nat)
    (start_epoch : Nat) (force_stop_samples : Nat) : Bool × Dev :=
  if !st.sd_ok || st.capture_paused then (false, st)
  else if st.audio_recording then (false, st)
  else
    let seq := st.seqCounter
    let epoch := if start_epoch > 0 then start_epoch else o.now_epoch
    let st1 :=
      { st with
        seqCounter := seq + 1
        audio_seq := seq
        audio_start_epoch := adjust_start_epoch epoch
        audio_force_stop_samples := force_stop_samples
        audio_force_active := force_stop_samples > 0 }
    if !o.folder_ok then (false, st1)
    else
      let fp := build_audio_filepath st1.ntp_synced o.synced_path seq
      if !o.open_ok then (false, { st1 with audio_filepath := "" })
      else
        let st2 :=
          { st1 with
            audio_filepath := fp
            audio_samples_written := preroll_available st1
            audio_recording := true
            vad_under_count := 0 }
        if !o.first_write_ok then (false, finish_audio_recording st2 false)
        else
          (true,
            { st2 with
              audio_samples_written := st2.audio_samples_written + count })

/-- main.cpp `audio_tick` (lines 564-645).  In IDLE, a pending photo-clip is
serviced before a pending heartbeat, and both flags are consumed before the
start is attempted; otherwise the preroll and the VAD counters advance.  In
RECORDING, the frame is appended, a forced clip stops at its sample budget,
and a VAD clip stops on `AUDIO_VAD_STOP_FRAMES` quiet frames or at
`AUDIO_MAX_SEC`. -/
def audio_tick (st : Dev) (o : AudioOracle) : Dev :=
  if !st.audio_ok then st
  else if !o.read_ok then st
  else if o.sample_count = 0 then st
  else if !st.audio_recording then
    if st.audio_photo_clip_pending then
      let st1 := { st with audio_photo_clip_pending := false }
      (start_audio_recording st1 o o.sample_count st.audio_photo_clip_epoch
        (kAudioPrerollSamples + ms_to_samples AUDIO_PHOTO_CLIP_POST_MS)).2
    else if st.audio_heartbeat_pending then
      let st1 := { st with audio_heartbeat_pending := false }
      (start_audio_recording st1 o o.sample_count o.now_epoch
        (kAudioPrerollSamples + ms_to_samples AUDIO_HEARTBEAT_DURATION_MS)).2
    else
      let st1 := preroll_push st o.sample_count
      let st2 :=
        if o.rms_over then { st1 with vad_over_count := st1.vad_over_count + 1 }
        else { st1 with vad_over_count := 0 }
      if 4 ≤ st2.vad_over_count then
        let (ok, st3) := start_audio_recording st2 o o.sample_count o.now_epoch 0
        if ok then { st3 with vad_over_count := 0 } else st3
      else st2
  else
    if !o.frame_write_ok then finish_audio_recording st false
    else
      let st1 :=
        { st with
          audio_samples_written := st.audio_samples_written + o.sample_count }
      if st1.audio_force_active then
        if st1.audio_force_stop_samples > 0 &&
            st1.audio_force_stop_samples ≤ st1.audio_samples_written then
          finish_audio_recording st1 true
        else st1
      else
        let st2 :=
          if o.rms_under then
            { st1 with vad_under_count := st1.vad_under_count + 1 }
          else { st1 with vad_under_count := 0 }
        if 50 ≤ st2.vad_under_count ||
            AUDIO_MAX_SEC * AUDIO_SAMPLE_RATE ≤ st2.audio_samples_written then
          finish_audio_recording st2 true
        else st2

/-- Environment inputs of `capture_and_save`: camera frame outcome and size,
file open outcome, bytes actually written, wall clock, and the
strftime-derived path when NTP is synced. -/
structure CaptureOracle where
  fb_ok : Bool
  fb_len : Nat
  open_ok : Bool
  write_len : Nat
  now_epoch : Nat
  synced_path : String
deriving DecidableEq, Repr

/-- main.cpp `build_date_folder` + `build_filename` (lines 131-159) combined
into the full photo path. -/
def build_photo_filepath (ntp_synced : Bool) (synced_path : String) (seq : Nat) :
    String :=
  if ntp_synced then synced_path
  else "/unsynced" ++ "/img_" ++ toString seq ++ ".jpg"

/-- main.cpp `capture_and_save` (lines 1055-1099): grab a frame, allocate a
sequence number, write the JPEG (a short write leaves the partial file on
disk and fails), write a PENDING manifest, and raise the photo-clip flag when
audio is available and idle (`AUDIO_PHOTO_CLIP_ENABLED` is 1 in config.h). -/
def capture_and_save (st : Dev) (o : CaptureOracle) : Bool × Dev :=
  if !st.sd_ok || !st.camera_ok then (false, st)
  else if st.capture_paused then (false, st)
  else if !o.fb_ok then (false, st)
  else
    let seq := st.seqCounter
    let st1 := { st with seqCounter := seq + 1 }
    let fp := build_photo_filepath st1.ntp_synced o.synced_path seq
    if !o.open_ok then (false, st1)
    else
      let st2 := { st1 with artifacts := st1.artifacts ++ [(fp, o.write_len)] }
      if o.write_len ≠ o.fb_len then (false, st2)
      else
        let st3 :=
          { st2 with
            manifests :=
              write_manifest_atomic st2.manifests seq fp o.now_epoch "PENDING"
                "photo" "image/jpeg" 0 0 }
        let st4 :=
          if st3.audio_ok && !st3.audio_recording then
            { st3 with
              audio_photo_clip_pending := true
              audio_photo_clip_epoch := o.now_epoch }
          else st3
        (true, st4)

/-- main.cpp `upload_batch` (lines 1046-1053) over a list of per-item network
oracles (the caller bounds the list at `UPLOAD_BATCH_SIZE`): stop at the
first failed upload. -/
def upload_batch (token : String) : List NetOracle → Dev → Nat → Dev
  | [], st, _ => st
  | o :: rest, st, now_ep =>
    let (ok, ms) :=
      upload_one_pending st.sd_ok st.wifi_ok token o st.manifests now_ep now_ep
    let st1 := { st with manifests := ms }
    if ok then upload_batch token rest st1 now_ep else st1

/-- Environment inputs of one cooperative loop iteration. -/
structure LoopOracle where
  audio : AudioOracle
  wifi_result : Bool
  ntp_result : Bool
  capture : CaptureOracle
  uploads : List NetOracle
  upload_now_epoch : Nat
deriving Repr

/-- main.cpp loop lines 1168-1174: Wi-Fi reconnect attempt. -/
def wifi_step (st : Dev) (now : Nat) (result : Bool) : Dev :=
  if !st.wifi_ok && !st.audio_recording && 10000 ≤ now - st.last_wifi_attempt then
    { st with wifi_ok := result, last_wifi_attempt := now }
  else st

/-- main.cpp loop lines 1176-1180: NTP sync attempt. -/
def ntp_step (st : Dev) (now : Nat) (result : Bool) : Dev :=
  if st.wifi_ok && !st.ntp_synced && !st.audio_recording &&
      15000 ≤ now - st.last_ntp_attempt then
    { st with ntp_synced := result, last_ntp_attempt := now }
  else st

/-- main.cpp loop lines 1182-1185: periodic photo capture. -/
def capture_step (st : Dev) (now : Nat) (o : CaptureOracle) : Dev :=
  if CAPTURE_INTERVAL_MS ≤ now - st.last_capture then
    { (capture_and_save st o).2 with last_capture := now }
  else st

/-- main.cpp loop lines 1188-1194: raise the audio heartbeat flag
(`AUDIO_HEARTBEAT_ENABLED` is 1 in config.h).  The guard checks that audio is
available, that no recording is in progress, and that no heartbeat is already
pending — it does not inspect `audio_photo_clip_pending`. -/
def heartbeat_step (st : Dev) (now : Nat) : Dev :=
  if st.audio_ok && !st.audio_recording && !st.audio_heartbeat_pending &&
      AUDIO_HEARTBEAT_INTERVAL_MS ≤ now - st.last_audio_heartbeat then
    { st with audio_heartbeat_pending := true, last_audio_heartbeat := now }
  else st

/-- main.cpp loop lines 1197-1200: upload batch. -/
def upload_step (token : String) (st : Dev) (now : Nat) (o : LoopOracle) : Dev :=
  if !st.audio_recording && UPLOAD_INTERVAL_MS ≤ now - st.last_upload then
    { upload_batch token (o.uploads.take UPLOAD_BATCH_SIZE) st o.upload_now_epoch with
      last_upload := now }
  else st

/-- main.cpp loop lines 1202-1205: retention sweep. -/
def retention_step (st : Dev) (now : Nat) : Dev :=
  if !st.audio_recording && RETENTION_CHECK_INTERVAL_MS ≤ now - st.last_retention_check then
    { enforce_retention st with last_retention_check := now }
  else st

/-- main.cpp loop lines 1207-1210: telemetry touches no modelled state beyond
its timer. -/
def telemetry_step (st : Dev) (now : Nat) : Dev :=
  if !st.audio_recording && TELEMETRY_INTERVAL_MS ≤ now - st.last_telemetry then
    { st with last_telemetry := now }
  else st

/-- main.cpp `loop` (lines 1164-1213): one cooperative iteration at uptime
`now` (milliseconds). -/
def loop_iter (token : String) (st : Dev) (now : Nat) (o : LoopOracle) : Dev :=
  let st1 := audio_tick st o.audio
  let st2 := wifi_step st1 now o.wifi_result
  let st3 := ntp_step st2 now o.ntp_result
  let st4 := capture_step st3 now o.capture
  let st5 := heartbeat_step st4 now
  let st6 := upload_step token st5 now o
  let st7 := retention_step st6 now
  telemetry_step st7 now

/-- The device state right after `setup()` (main.cpp lines 1101-1162) on a
boot where every subsystem initializes, the boot-time photo capture fails at
the camera frame grab, Wi-Fi connects and NTP fails: all pending flags are
down, every counter and timer is zero. -/
def boot_state : Dev :=
  { sd_ok := true
    camera_ok := true
    audio_ok := true
    wifi_ok := true
    ntp_synced := false
    capture_paused := false
    seqCounter := 0
    manifests := []
    artifacts := []
    totalBytes := 1000000
    baseUsed := 900000
    audio_recording := false
    audio_filepath := ""
    audio_start_epoch := 0
    audio_seq := 0
    audio_samples_written := 0
    audio_force_active := false
    audio_force_stop_samples := 0
    audio_photo_clip_pending := false
    audio_photo_clip_epoch := 0
    audio_heartbeat_pending := false
    vad_over_count := 0
    vad_under_count := 0
    preroll_index := 0
    preroll_filled := false
    last_capture := 0
    last_upload := 0
    last_wifi_attempt := 0
    last_ntp_attempt := 0
    last_retention_check := 0
    last_telemetry := 0
    last_audio_heartbeat := 0 }

/-- A freshly captured unsynced photo manifest (the state of
`/manifests/0.json` after the first boot capture of §8 scenario 1). -/
def doc_pending0 : ManifestDoc :=
  { seq := 0
    filepath := "/unsynced/img_0.jpg"
    captured_epoch := 0
    status := "PENDING"
    item_type := "photo"
    content_type := "image/jpeg"
    upload_attempts := 0
    last_attempt_epoch := 0 }

/-- An already uploaded photo manifest. -/
def doc_uploaded1 : ManifestDoc :=
  { seq := 1
    filepath := "/20240101/a.jpg"
    captured_epoch := 100
    status := "UPLOADED"
    item_type := "photo"
    content_type := "image/jpeg"
    upload_attempts := 1
    last_attempt_epoch := 50 }

/-- A younger uploaded photo manifest. -/
def doc_uploaded2 : ManifestDoc :=
  { seq := 2
    filepath := "/20240101/b.jpg"
    captured_epoch := 200
    status := "UPLOADED"
    item_type := "photo"
    content_type := "image/jpeg"
    upload_attempts := 1
    last_attempt_epoch := 60 }

/-- A device at 5% free space holding one uploaded and one pending item. -/
def wret_state : Dev :=
  { boot_state with
    manifests := [doc_uploaded1, doc_pending0]
    artifacts := [("/20240101/a.jpg", 50000)]
    totalBytes := 1000000
    baseUsed := 900000 }

/-- A device with a heartbeat pending and a full preroll ring, about to start
a forced heartbeat clip. -/
def hb_state : Dev :=
  { boot_state with audio_heartbeat_pending := true, preroll_filled := true }

/-- A benign tick environment at wall clock 1000: one 320-sample frame, all
filesystem operations succeed, no VAD activity. -/
def hb_tick_oracle : AudioOracle :=
  { read_ok := true
    sample_count := 320
    rms_over := false
    rms_under := false
    folder_ok := true
    open_ok := true
    first_write_ok := true
    frame_write_ok := true
    now_epoch := 1000
    synced_path := "" }

/-- The heartbeat clip run to completion: the starting tick followed by the
149 recording ticks that reach the 64000-sample forced budget
(16000 preroll + 48000 post, entering with 16320 samples and adding 320 per
tick), whose last tick finalizes KEEP and writes the manifest. -/
def hb_run : Dev :=
  (fun s => audio_tick s hb_tick_oracle)^[149] (audio_tick hb_state hb_tick_oracle)

/-- A device with a photo-clip pending but the SD card unavailable, so that
the forced start fails. -/
def w10_state : Dev :=
  { boot_state with sd_ok := false, audio_photo_clip_pending := true }

/-- The audio-tick environment of the heartbeat-collision trace: a quiet
320-sample frame. -/
def o6_audio : AudioOracle :=
  { read_ok := true
    sample_count := 320
    rms_over := false
    rms_under := false
    folder_ok := true
    open_ok := true
    first_write_ok := true
    frame_write_ok := true
    now_epoch := 300
    synced_path := "" }

/-- The capture environment of the heartbeat-collision trace: a 100-byte JPEG
frame written in full. -/
def o6_capture : CaptureOracle :=
  { fb_ok := true
    fb_len := 100
    open_ok := true
    write_len := 100
    now_epoch := 300
    synced_path := "" }

/-- The state handed to the heartbeat step inside the first loop iteration
after boot, run at uptime 300000 ms: the prefix of `loop_iter` up to and
including `capture_step` (audio tick, Wi-Fi step, NTP step, photo capture).
The capture raises the photo-clip flag, and the heartbeat step then runs on
this state. -/
def mid6 : Dev :=
  capture_step
    (ntp_step (wifi_step (audio_tick boot_state o6_audio) 300000 true) 300000 false)
    300000 o6_capture

/-- A pending manifest on its third attempt window (2 prior failures). -/
def cw_doc : ManifestDoc :=
  { seq := 3
    filepath := "/20240102/c.jpg"
    captured_epoch := 50
    status := "PENDING"
    item_type := "photo"
    content_type := "image/jpeg"
    upload_attempts := 2
    last_attempt_epoch := 0 }

/-- The `PendingItem` that `load_manifest` produces for `cw_doc`. -/
def cw_item : PendingItem :=
  { manifest_path := manifest_path_of 3
    filepath := "/20240102/c.jpg"
    item_type := "photo"
    content_type := "image/jpeg"
    seq := 3
    captured_epoch := 50
    upload_attempts := 2
    last_attempt_epoch := 0 }

/-- A device in the middle of a recording with enough samples to keep. -/
def w7_fin : Dev :=
  { boot_state with
    audio_recording := true
    audio_filepath := "/unsynced_audio/audio_0.wav"
    audio_samples_written := 20000
    audio_seq := 0
    audio_start_epoch := 999 }

/-! ### Helper lemmas: the ordering -/

/-- Characterization of the `better` comparison: the new item wins exactly
under the three-rule ordering of §4.5. -/
theorem older_than_iff (iE iS bE bS : Nat) :
    older_than iE iS bE bS = true ↔
      (0 < iE ∧ 0 < bE ∧ iE < bE) ∨ (0 < iE ∧ bE = 0) ∨
        (iE = 0 ∧ bE = 0 ∧ iS < bS) := by
  unfold older_than
  split_ifs with h1 h2 h3 <;> simp_all <;> omega

theorem older_than_irrefl (e s : Nat) : older_than e s e s = false := by
  rw [← Bool.not_eq_true, older_than_iff]
  omega

theorem older_than_trans {aE aS bE bS cE cS : Nat}
    (h1 : older_than aE aS bE bS = true) (h2 : older_than bE bS cE cS = true) :
    older_than aE aS cE cS = true := by
  rw [older_than_iff] at h1 h2 ⊢
  omega

theorem older_than_neg_trans {aE aS bE bS cE cS : Nat}
    (h1 : older_than aE aS bE bS = false) (h2 : older_than bE bS cE cS = false) :
    older_than aE aS cE cS = false := by
  rw [← Bool.not_eq_true, older_than_iff] at h1 h2 ⊢
  omega

/-! ### Helper lemmas: the manifest store -/

theorem mem_store_put {s : List ManifestDoc} {x d : ManifestDoc}
    (h : d ∈ store_put s x) : d ∈ s ∨ d = x := by
  unfold store_put at h
  split_ifs at h with hany
  · rcases List.mem_map.mp h with ⟨d0, hd0, heq⟩
    by_cases hseq : (d0.seq == x.seq) = true
    · right; rw [if_pos hseq] at heq; exact heq.symm
    · left; rw [if_neg hseq] at heq; exact heq ▸ hd0
  · rcases List.mem_append.mp h with h' | h'
    · exact Or.inl h'
    · exact Or.inr (List.mem_singleton.mp h')

theorem store_get_put_self (s : List ManifestDoc) (x : ManifestDoc) :
    store_get (store_put s x) x.seq = some x := by
  unfold store_get store_put
  split_ifs with hany
  · induction s with
    | nil => simp at hany
    | cons d0 s ih =>
      by_cases hseq : (d0.seq == x.seq) = true
      · simp [List.find?, hseq]
      · have hany' : s.any (fun d => d.seq == x.seq) = true := by
          rcases List.any_eq_true.mp hany with ⟨d, hd, hdx⟩
          rcases List.mem_cons.mp hd with rfl | hd'
          · exact absurd hdx hseq
          · exact List.any_eq_true.mpr ⟨d, hd', hdx⟩
        simpa [List.find?, hseq] using ih hany'
  · induction s with
    | nil => simp [List.find?]
    | cons d0 s ih =>
      have hseq : (d0.seq == x.seq) = false := by
        by_contra hc
        exact hany (List.any_eq_true.mpr
          ⟨d0, List.mem_cons_self d0 s, Bool.of_not_eq_false hc⟩)
      have hany' : ¬ s.any (fun d => d.seq == x.seq) = true := fun hc =>
        hany (by
          rcases List.any_eq_true.mp hc with ⟨d, hd, hdx⟩
          exact List.any_eq_true.mpr ⟨d, List.mem_cons_of_mem d0 hd, hdx⟩)
      simpa [List.find?, hseq] using ih hany'

/-- The projections of `load_manifest` that copy document fields verbatim. -/
theorem load_manifest_fields (doc : ManifestDoc) :
    (load_manifest doc).1.seq = doc.seq ∧
    (load_manifest doc).1.filepath = doc.filepath ∧
    (load_manifest doc).1.captured_epoch = doc.captured_epoch ∧
    (load_manifest doc).1.upload_attempts = doc.upload_attempts ∧
    (load_manifest doc).1.last_attempt_epoch = doc.last_attempt_epoch ∧
    (load_manifest doc).2 = doc.status := by
  unfold load_manifest
  exact ⟨rfl, rfl, rfl, rfl, rfl, rfl⟩

/-! ### Helper lemmas: the oldest-candidate scan -/

theorem min_step_no_cand {cand : ManifestDoc → Option PendingItem}
    {doc : ManifestDoc} (b : Option PendingItem) (hc : cand doc = none) :
    min_step cand b doc = b := by
  simp [min_step, hc]

theorem min_step_first {cand : ManifestDoc → Option PendingItem}
    {doc : ManifestDoc} {item : PendingItem} (hc : cand doc = some item) :
    min_step cand none doc = some item := by
  simp [min_step, hc]

theorem min_step_better {cand : ManifestDoc → Option PendingItem}
    {doc : ManifestDoc} {item bb : PendingItem} (hc : cand doc = some item)
    (hcmp : older_than item.captured_epoch item.seq bb.captured_epoch bb.seq = true) :
    min_step cand (some bb) doc = some item := by
  simp [min_step, hc, hcmp]

theorem min_step_keep {cand : ManifestDoc → Option PendingItem}
    {doc : ManifestDoc} {item bb : PendingItem} (hc : cand doc = some item)
    (hcmp : older_than item.captured_epoch item.seq bb.captured_epoch bb.seq = false) :
    min_step cand (some bb) doc = some bb := by
  simp [min_step, hc, hcmp]

/-- A successful scan returns one of the candidates, and no candidate in the
scanned list (nor the initial best) is strictly older than the result. -/
theorem min_fold_spec (cand : ManifestDoc → Option PendingItem) :
    ∀ (l : List ManifestDoc) (b : Option PendingItem) (m : PendingItem),
      l.foldl (min_step cand) b = some m →
      ((∃ doc ∈ l, cand doc = some m) ∨ b = some m) ∧
      (∀ doc ∈ l, ∀ c, cand doc = some c →
        older_than c.captured_epoch c.seq m.captured_epoch m.seq = false) ∧
      (∀ bb, b = some bb →
        older_than bb.captured_epoch bb.seq m.captured_epoch m.seq = false) := by
  intro l
  induction l with
  | nil =>
    intro b m h
    simp only [List.foldl_nil] at h
    refine ⟨Or.inr h, by simp, ?_⟩
    intro bb hbb
    rw [hbb] at h
    cases h
    exact older_than_irrefl m.captured_epoch m.seq
  | cons doc l ih =>
    intro b m h
    simp only [List.foldl_cons] at h
    obtain ⟨ihmem, ihmin, ihb⟩ := ih (min_step cand b doc) m h
    cases hc : cand doc with
    | none =>
      rw [min_step_no_cand b hc] at ihmem ihb
      refine ⟨?_, ?_, ihb⟩
      · exact ihmem.imp
          (fun ⟨d, hd, hcd⟩ => ⟨d, List.mem_cons_of_mem doc hd, hcd⟩) id
      · intro d hd c hcd
        rcases List.mem_cons.mp hd with rfl | hd'
        · rw [hc] at hcd; cases hcd
        · exact ihmin d hd' c hcd
    | some item =>
      cases b with
      | none =>
        rw [min_step_first hc] at ihmem ihb
        have hitem_m := ihb item rfl
        refine ⟨?_, ?_, by intro bb hbb; cases hbb⟩
        · rcases ihmem with ⟨d, hd, hcd⟩ | heq
          · exact Or.inl ⟨d, List.mem_cons_of_mem doc hd, hcd⟩
          · injection heq with heq
            exact Or.inl ⟨doc, List.mem_cons_self doc l, by rw [hc, heq]⟩
        · intro d hd c hcd
          rcases List.mem_cons.mp hd with rfl | hd'
          · rw [hc] at hcd; injection hcd with hcd; subst hcd; exact hitem_m
          · exact ihmin d hd' c hcd
      | some bb =>
        cases hcmp :
            older_than item.captured_epoch item.seq bb.captured_epoch bb.seq with
        | true =>
          rw [min_step_better hc hcmp] at ihmem ihb
          have hitem_m := ihb item rfl
          have hbb_m :
              older_than bb.captured_epoch bb.seq m.captured_epoch m.seq = false := by
            cases hx : older_than bb.captured_epoch bb.seq m.captured_epoch m.seq with
            | false => rfl
            | true => rw [older_than_trans hcmp hx] at hitem_m; cases hitem_m
          refine ⟨?_, ?_, ?_⟩
          · rcases ihmem with ⟨d, hd, hcd⟩ | heq
            · exact Or.inl ⟨d, List.mem_cons_of_mem doc hd, hcd⟩
            · injection heq with heq
              exact Or.inl ⟨doc, List.mem_cons_self doc l, by rw [hc, heq]⟩
          · intro d hd c hcd
            rcases List.mem_cons.mp hd with rfl | hd'
            · rw [hc] at hcd; injection hcd with hcd; subst hcd; exact hitem_m
            · exact ihmin d hd' c hcd
          · intro bb' hbb'
            injection hbb' with hbb'
            subst hbb'
            exact hbb_m
        | false =>
          rw [min_step_keep hc hcmp] at ihmem ihb
          have hbb_m := ihb bb rfl
          refine ⟨?_, ?_, ?_⟩
          · exact ihmem.imp
              (fun ⟨d, hd, hcd⟩ => ⟨d, List.mem_cons_of_mem doc hd, hcd⟩) id
          · intro d hd c hcd
            rcases List.mem_cons.mp hd with rfl | hd'
            · rw [hc] at hcd; injection hcd with hcd; subst hcd
              exact older_than_neg_trans hcmp hbb_m
            · exact ihmin d hd' c hcd
          · intro bb' hbb'
            injection hbb' with hbb'
            subst hbb'
            exact hbb_m

/-- A scan that returns nothing saw no candidate at all. -/
theorem min_fold_none (cand : ManifestDoc → Option PendingItem) :
    ∀ (l : List ManifestDoc) (b : Option PendingItem),
      l.foldl (min_step cand) b = none →
      b = none ∧ ∀ doc ∈ l, cand doc = none := by
  intro l
  induction l with
  | nil =>
    intro b h
    simp only [List.foldl_nil] at h
    exact ⟨h, by simp⟩
  | cons doc l ih =>
    intro b h
    simp only [List.foldl_cons] at h
    obtain ⟨hstep, hrest⟩ := ih (min_step cand b doc) h
    have hdoc : cand doc = none ∧ b = none := by
      cases hc : cand doc with
      | none => exact ⟨rfl, by rwa [min_step_no_cand b hc] at hstep⟩
      | some item =>
        cases b with
        | none => rw [min_step_first hc] at hstep; cases hstep
        | some bb =>
          cases hcmp :
              older_than item.captured_epoch item.seq bb.captured_epoch bb.seq with
          | true => rw [min_step_better hc hcmp] at hstep; cases hstep
          | false => rw [min_step_keep hc hcmp] at hstep; cases hstep
    refine ⟨hdoc.2, ?_⟩
    intro d hd
    rcases List.mem_cons.mp hd with rfl | hd'
    · exact hdoc.1
    · exact hrest d hd'

/-! ### Helper lemmas: the two selection functions -/

theorem fop_fold_fst (now : Nat) :
    ∀ (l : List ManifestDoc) (b : Option PendingItem) (s : List ManifestDoc),
      (l.foldl (fop_step now) (b, s)).1 =
        l.foldl (min_step (pending_cand now)) b := by
  intro l
  induction l with
  | nil => intro b s; rfl
  | cons doc l ih =>
    intro b s
    simp only [List.foldl_cons]
    exact ih (min_step (pending_cand now) b doc) (fop_gc_store s doc)

theorem write_manifest_doc_status (seq : Nat) (filepath : String)
    (captured_epoch : Nat) (status item_type content_type : String)
    (upload_attempts : Int) (last_attempt_epoch : Nat) :
    (write_manifest_doc seq filepath captured_epoch status item_type content_type
      upload_attempts last_attempt_epoch).status = status := rfl

theorem mem_fop_gc_store {s : List ManifestDoc} {doc d : ManifestDoc}
    (hd : d ∈ fop_gc_store s doc) : d ∈ s ∨ d.status = "FAILED" := by
  simp only [fop_gc_store] at hd
  split_ifs at hd
  · exact Or.inl hd
  · rcases mem_store_put hd with hmem | rfl
    · exact Or.inl hmem
    · exact Or.inr (write_manifest_doc_status ..)
  · exact Or.inl hd

theorem fop_fold_store_mem (now : Nat) :
    ∀ (l : List ManifestDoc) (b : Option PendingItem) (s : List ManifestDoc)
      (d : ManifestDoc),
      d ∈ (l.foldl (fop_step now) (b, s)).2 → d ∈ s ∨ d.status = "FAILED" := by
  intro l
  induction l with
  | nil => intro b s d hd; exact Or.inl hd
  | cons doc l ih =>
    intro b s d hd
    simp only [List.foldl_cons] at hd
    rcases ih (min_step (pending_cand now) b doc) (fop_gc_store s doc) d hd with
      hmem | hfail
    · rcases mem_fop_gc_store hmem with hmem' | hfail'
      · exact Or.inl hmem'
      · exact Or.inr hfail'
    · exact Or.inr hfail

theorem pending_cand_spec {now : Nat} {doc : ManifestDoc} {item : PendingItem}
    (h : pending_cand now doc = some item) :
    doc.status = "PENDING" ∧ item.upload_attempts < UPLOAD_MAX_ATTEMPTS ∧
    pending_eligible now item = true ∧ (load_manifest doc).1 = item := by
  have hstat := (load_manifest_fields doc).2.2.2.2.2
  unfold pending_cand at h
  split_ifs at h with h1 h2 h3
  · injection h with h
    subst h
    refine ⟨by rw [← hstat]; simpa using h1, by omega, by simpa using h3, rfl⟩

theorem uploaded_cand_some {doc : ManifestDoc} {item : PendingItem}
    (h : uploaded_cand doc = some item) :
    doc.status = "UPLOADED" ∧ (load_manifest doc).1 = item := by
  have hstat := (load_manifest_fields doc).2.2.2.2.2
  unfold uploaded_cand at h
  split_ifs at h with h1
  · injection h with h
    exact ⟨hstat ▸ h1, h⟩

theorem uploaded_cand_of_status {doc : ManifestDoc} (h : doc.status = "UPLOADED") :
    uploaded_cand doc = some (load_manifest doc).1 := by
  have hstat := (load_manifest_fields doc).2.2.2.2.2
  unfold uploaded_cand
  rw [if_pos (hstat.trans h)]

theorem find_oldest_pending_spec {now : Nat} {store store1 : List ManifestDoc}
    {item : PendingItem}
    (h : find_oldest_pending true now store = (some item, store1)) :
    (∃ doc ∈ store, pending_cand now doc = some item) ∧
    (∀ doc ∈ store, ∀ c, pending_cand now doc = some c →
      older_than c.captured_epoch c.seq item.captured_epoch item.seq = false) := by
  unfold find_oldest_pending at h
  simp only [Bool.not_true, Bool.false_eq_true, if_false] at h
  have hfst : (store.foldl (fop_step now) (none, store)).1 = some item := by
    rw [h]
  rw [fop_fold_fst now store none store] at hfst
  obtain ⟨hmem, hmin, _⟩ := min_fold_spec (pending_cand now) store none item hfst
  rcases hmem with hmem | hcon
  · exact ⟨hmem, hmin⟩
  · cases hcon

theorem find_oldest_pending_store_mem {now : Nat} {store store1 : List ManifestDoc}
    {r : Option PendingItem}
    (h : find_oldest_pending true now store = (r, store1)) :
    ∀ d ∈ store1, d ∈ store ∨ d.status = "FAILED" := by
  unfold find_oldest_pending at h
  simp only [Bool.not_true, Bool.false_eq_true, if_false] at h
  intro d hd
  have hsnd : (store.foldl (fop_step now) (none, store)).2 = store1 := by
    rw [h]
  rw [← hsnd] at hd
  exact fop_fold_store_mem now store none store d hd

theorem find_oldest_uploaded_spec {store : List ManifestDoc} {item : PendingItem}
    (h : find_oldest_uploaded true store = some item) :
    (∃ doc ∈ store, uploaded_cand doc = some item) ∧
    (∀ doc ∈ store, ∀ c, uploaded_cand doc = some c →
      older_than c.captured_epoch c.seq item.captured_epoch item.seq = false) := by
  unfold find_oldest_uploaded at h
  simp only [Bool.not_true, Bool.false_eq_true, if_false] at h
  obtain ⟨hmem, hmin, _⟩ := min_fold_spec uploaded_cand store none item h
  rcases hmem with hmem | hcon
  · exact ⟨hmem, hmin⟩
  · cases hcon

theorem find_oldest_uploaded_none {store : List ManifestDoc}
    (h : find_oldest_uploaded true store = none) :
    ∀ d ∈ store, d.status ≠ "UPLOADED" := by
  unfold find_oldest_uploaded at h
  simp only [Bool.not_true, Bool.false_eq_true, if_false] at h
  obtain ⟨_, hall⟩ := min_fold_none uploaded_cand store none h
  intro d hd hup
  have hcd := hall d hd
  rw [uploaded_cand_of_status hup] at hcd
  cases hcd

/-! ### Claim C1 -/

/-- Claim C1: for every PENDING manifest selected by the upload engine, a
failed attempt (any of the three network steps failing) rewrites its manifest
with `upload_attempts` incremented by one and, when that incremented count has
reached `UPLOAD_MAX_ATTEMPTS`, with status FAILED and `upload_attempts`
exactly `UPLOAD_MAX_ATTEMPTS` (the selected item always had fewer than the
maximum); moreover `find_oldest_pending` only ever returns items loaded from
manifests whose stored status is `PENDING`, so a FAILED manifest is never
selected again. -/
theorem upload_failure_attempts :
    (∀ (store store1 : List ManifestDoc) (now aep : Nat) (item : PendingItem)
        (o : NetOracle) (token : String),
      find_oldest_pending true now store = (some item, store1) →
      (request_upload_target token o = false ∨ o.stream_ok = false ∨
        o.ingest_ok = false) →
      store_get (upload_one_pending true true token o store now aep).2 item.seq =
        some (write_manifest_doc item.seq item.filepath item.captured_epoch
          (if UPLOAD_MAX_ATTEMPTS ≤ item.upload_attempts + 1 then "FAILED"
           else "PENDING")
          item.item_type item.content_type (item.upload_attempts + 1) aep) ∧
      (UPLOAD_MAX_ATTEMPTS ≤ item.upload_attempts + 1 →
        item.upload_attempts + 1 = UPLOAD_MAX_ATTEMPTS)) ∧
    (∀ (now : Nat) (store store1 : List ManifestDoc) (item : PendingItem),
      find_oldest_pending true now store = (some item, store1) →
      ∃ doc ∈ store, doc.status = "PENDING" ∧ (load_manifest doc).1 = item) := by
  constructor
  · intro store store1 now aep item o token h1 h2
    obtain ⟨⟨doc, hdoc, hcand⟩, _⟩ := find_oldest_pending_spec h1
    obtain ⟨hstat, hlt, helig, hload⟩ := pending_cand_spec hcand
    have hfinal :
        store_get
          (upload_fail_update
            (update_manifest_status store1 item "PENDING"
              (item.upload_attempts + 1) aep) item aep) item.seq =
        some (write_manifest_doc item.seq item.filepath item.captured_epoch
          (if UPLOAD_MAX_ATTEMPTS ≤ item.upload_attempts + 1 then "FAILED"
           else "PENDING")
          item.item_type item.content_type (item.upload_attempts + 1) aep) := by
      unfold upload_fail_update update_manifest_status write_manifest_atomic
      by_cases hm : UPLOAD_MAX_ATTEMPTS ≤ item.upload_attempts + 1
      · rw [if_pos hm, if_pos hm]
        exact store_get_put_self ..
      · rw [if_neg hm, if_neg hm]
        exact store_get_put_self ..
    have hpost :
        (upload_one_pending true true token o store now aep).2 =
          upload_fail_update
            (update_manifest_status store1 item "PENDING"
              (item.upload_attempts + 1) aep) item aep := by
      unfold upload_one_pending
      simp only [Bool.and_self, Bool.not_true, Bool.false_eq_true, if_false]
      rw [h1]
      dsimp only
      rcases h2 with hr | hs | hi
      · simp [hr]
      · cases hreq : request_upload_target token o with
        | false => simp
        | true => simp [hs]
      · cases hreq : request_upload_target token o with
        | false => simp
        | true =>
          cases hstr : o.stream_ok with
          | false => simp
          | true => simp [hi]
    refine ⟨by rw [hpost]; exact hfinal, ?_⟩
    intro hm
    simp only [UPLOAD_MAX_ATTEMPTS] at hlt hm ⊢
    omega
  · intro now store store1 item h1
    obtain ⟨⟨doc, hdoc, hcand⟩, _⟩ := find_oldest_pending_spec h1
    obtain ⟨hstat, _, _, hload⟩ := pending_cand_spec hcand
    exact ⟨doc, hdoc, hstat, hload⟩

theorem upload_failure_attempts_w :
    (store_get
        (upload_one_pending true true "t" ⟨false, true, true⟩ [cw_doc] 10000
          10000).2 cw_item.seq =
      some (write_manifest_doc cw_item.seq cw_item.filepath cw_item.captured_epoch
        (if UPLOAD_MAX_ATTEMPTS ≤ cw_item.upload_attempts + 1 then "FAILED"
         else "PENDING")
        cw_item.item_type cw_item.content_type (cw_item.upload_attempts + 1)
        10000) ∧
      (UPLOAD_MAX_ATTEMPTS ≤ cw_item.upload_attempts + 1 →
        cw_item.upload_attempts + 1 = UPLOAD_MAX_ATTEMPTS)) ∧
    (∃ doc ∈ [cw_doc], doc.status = "PENDING" ∧ (load_manifest doc).1 = cw_item) :=
  ⟨upload_failure_attempts.1 [cw_doc] [cw_doc] 10000 10000 cw_item
      ⟨false, true, true⟩ "t" (by decide) (Or.inl (by decide)),
    upload_failure_attempts.2 10000 [cw_doc] [cw_doc] cw_item (by decide)⟩

/-! ### Claim C2 -/

/-- Claim C2: both selection functions return the minimum of the candidates
they consider under the §4.5 order — `find_oldest_pending` over the eligible
PENDING manifests (its candidate filter `pending_cand`), `find_oldest_uploaded`
over the UPLOADED manifests (`uploaded_cand`): the result is one of the
candidates and no candidate is strictly older.  The third conjunct spells the
order out: with both epochs positive the smaller `captured_epoch` is older,
with exactly one positive that one is older, with both zero the smaller `seq`
is older. -/
theorem oldest_selection_minimal :
    (∀ (now : Nat) (store store1 : List ManifestDoc) (item : PendingItem),
      find_oldest_pending true now store = (some item, store1) →
      (∃ doc ∈ store, pending_cand now doc = some item) ∧
      ∀ doc ∈ store, ∀ c, pending_cand now doc = some c →
        older_than c.captured_epoch c.seq item.captured_epoch item.seq = false) ∧
    (∀ (store : List ManifestDoc) (item : PendingItem),
      find_oldest_uploaded true store = some item →
      (∃ doc ∈ store, uploaded_cand doc = some item) ∧
      ∀ doc ∈ store, ∀ c, uploaded_cand doc = some c →
        older_than c.captured_epoch c.seq item.captured_epoch item.seq = false) ∧
    (∀ iE iS bE bS : Nat,
      older_than iE iS bE bS = true ↔
        (0 < iE ∧ 0 < bE ∧ iE < bE) ∨ (0 < iE ∧ bE = 0) ∨
          (iE = 0 ∧ bE = 0 ∧ iS < bS)) := by
  exact ⟨fun now store store1 item h => find_oldest_pending_spec h,
    fun store item h => find_oldest_uploaded_spec h,
    older_than_iff⟩

theorem oldest_selection_minimal_w :
    ((∃ doc ∈ [cw_doc], pending_cand 10000 doc = some cw_item) ∧
      ∀ doc ∈ [cw_doc], ∀ c, pending_cand 10000 doc = some c →
        older_than c.captured_epoch c.seq cw_item.captured_epoch cw_item.seq =
          false) ∧
    ((∃ doc ∈ [doc_uploaded2, doc_uploaded1],
        uploaded_cand doc = some (load_manifest doc_uploaded1).1) ∧
      ∀ doc ∈ [doc_uploaded2, doc_uploaded1], ∀ c, uploaded_cand doc = some c →
        older_than c.captured_epoch c.seq
          (load_manifest doc_uploaded1).1.captured_epoch
          (load_manifest doc_uploaded1).1.seq = false) ∧
    (older_than 100 2 200 1 = true ↔
      (0 < 100 ∧ 0 < 200 ∧ 100 < 200) ∨ (0 < 100 ∧ 200 = 0) ∨
        (100 = 0 ∧ 200 = 0 ∧ 2 < 1)) :=
  ⟨oldest_selection_minimal.1 10000 [cw_doc] [cw_doc] cw_item (by decide),
    oldest_selection_minimal.2.1 [doc_uploaded2, doc_uploaded1]
      (load_manifest doc_uploaded1).1 (by decide),
    oldest_selection_minimal.2.2 100 2 200 1⟩

/-! ### Claim C4 -/

/-- Claim C4: a PENDING manifest with `upload_attempts` below the maximum is
eligible at time `now` exactly when `upload_attempts = 0` or
`now - last_attempt_epoch ≥ backoff(upload_attempts)` (integer arithmetic,
matching the signed `time_t` comparison), where `backoff_seconds` yields 60
and 300 seconds after 1 and 2 attempts (and 1800 from 3 on); and
`find_oldest_pending` returns only items that pass this eligibility test. -/
theorem backoff_eligibility :
    (∀ (now : Nat) (item : PendingItem),
      0 ≤ item.upload_attempts → item.upload_attempts < UPLOAD_MAX_ATTEMPTS →
      (pending_eligible now item = true ↔
        (item.upload_attempts = 0 ∨
          (backoff_seconds item.upload_attempts : Int) ≤
            (now : Int) - (item.last_attempt_epoch : Int)))) ∧
    (∀ (now : Nat) (store store1 : List ManifestDoc) (item : PendingItem),
      find_oldest_pending true now store = (some item, store1) →
      pending_eligible now item = true) := by
  constructor
  · intro now item h0 h3
    simp only [UPLOAD_MAX_ATTEMPTS] at h3
    have hcases : item.upload_attempts = 0 ∨ item.upload_attempts = 1 ∨
        item.upload_attempts = 2 := by omega
    unfold pending_eligible backoff_seconds
    unfold UPLOAD_BACKOFF_SEC_1 UPLOAD_BACKOFF_SEC_2 UPLOAD_BACKOFF_SEC_3
    rcases hcases with h | h | h <;>
      rw [h] <;>
      simp <;>
      omega
  · intro now store store1 item h
    obtain ⟨⟨doc, hdoc, hcand⟩, _⟩ := find_oldest_pending_spec h
    exact (pending_cand_spec hcand).2.2.1

theorem backoff_eligibility_w :
    (pending_eligible 10000 cw_item = true ↔
      (cw_item.upload_attempts = 0 ∨
        (backoff_seconds cw_item.upload_attempts : Int) ≤
          (10000 : Int) - (cw_item.last_attempt_epoch : Int))) ∧
    pending_eligible 10000 cw_item = true :=
  ⟨backoff_eligibility.1 10000 cw_item (by decide) (by decide),
    backoff_eligibility.2 10000 [cw_doc] [cw_doc] cw_item (by decide)⟩

/-! ### Claim C5 -/

/-- Claim C5, counterexample to the claim as stated: with the device token
empty and a single eligible PENDING manifest on disk, one upload tick does
not leave every manifest unchanged — the optimistic attempt bump of
`upload_one_pending` rewrites the selected manifest (upload_attempts 0 → 1,
last_attempt_epoch 0 → 100) before `request_upload_target` rejects the empty
token. -/
theorem empty_token_cex :
    (upload_one_pending true true "" ⟨true, true, true⟩ [doc_pending0] 100
      100).2 ≠ [doc_pending0] := by
  decide

/-- Claim C5, amended: with an empty device token an upload tick never
succeeds and never produces an UPLOADED manifest — every manifest of the
resulting store that carries status UPLOADED was already in the store before
the tick; the tick's only writes set the selected item's status to PENDING or
FAILED with a bumped attempt count. -/
theorem empty_token_no_upload (sd wifi : Bool) (o : NetOracle)
    (store : List ManifestDoc) (now aep : Nat) :
    (upload_one_pending sd wifi "" o store now aep).1 = false ∧
    ∀ d ∈ (upload_one_pending sd wifi "" o store now aep).2,
      d.status = "UPLOADED" → d ∈ store := by
  have hreq : request_upload_target "" o = false := by
    unfold request_upload_target
    rw [if_pos rfl]
  unfold upload_one_pending
  cases hsd : sd with
  | false =>
    simp only [Bool.false_and, Bool.not_false, if_true]
    exact ⟨by trivial, fun d hd _ => hd⟩
  | true =>
    cases hwifi : wifi with
    | false =>
      simp only [Bool.true_and, Bool.not_false, if_true]
      exact ⟨by trivial, fun d hd _ => hd⟩
    | true =>
      simp only [Bool.true_and, Bool.not_true, Bool.false_eq_true, if_false]
      rcases hfind : find_oldest_pending true now store with ⟨r, store1⟩
      have hmem1 := find_oldest_pending_store_mem hfind
      cases r with
      | none =>
        dsimp only
        refine ⟨by trivial, ?_⟩
        intro d hd hup
        rcases hmem1 d hd with hmem | hfail
        · exact hmem
        · exact absurd (hfail.symm.trans hup) (by decide)
      | some item =>
        dsimp only
        rw [hreq]
        simp only [Bool.not_false, if_true]
        refine ⟨by trivial, ?_⟩
        intro d hd hup
        have hfail_mem : ∀ d', d' ∈
            upload_fail_update
              (update_manifest_status store1 item "PENDING"
                (item.upload_attempts + 1) aep) item aep →
            d' ∈ store1 ∨ d'.status = "PENDING" ∨ d'.status = "FAILED" := by
          intro d' hd'
          unfold upload_fail_update update_manifest_status
            write_manifest_atomic at hd'
          split_ifs at hd' with hm
          · rcases mem_store_put hd' with hd'' | rfl
            · rcases mem_store_put hd'' with hd3 | rfl
              · exact Or.inl hd3
              · exact Or.inr (Or.inl rfl)
            · exact Or.inr (Or.inr rfl)
          · rcases mem_store_put hd' with hd'' | rfl
            · rcases mem_store_put hd'' with hd3 | rfl
              · exact Or.inl hd3
              · exact Or.inr (Or.inl rfl)
            · exact Or.inr (Or.inl rfl)
        rcases hfail_mem d hd with hmem | hpend | hfail
        · rcases hmem1 d hmem with hmem' | hfail'
          · exact hmem'
          · exact absurd (hfail'.symm.trans hup) (by decide)
        · exact absurd (hpend.symm.trans hup) (by decide)
        · exact absurd (hfail.symm.trans hup) (by decide)

theorem empty_token_no_upload_w :
    (upload_one_pending true true "" ⟨true, true, true⟩ [doc_pending0] 100
      100).1 = false ∧
    ∀ d ∈ (upload_one_pending true true "" ⟨true, true, true⟩ [doc_pending0] 100
      100).2, d.status = "UPLOADED" → d ∈ [doc_pending0] :=
  empty_token_no_upload true true ⟨true, true, true⟩ [doc_pending0] 100 100

/-! ### Claim C8 -/

/-- Claim C8, counterexample to the claim as stated: writing a manifest with
an empty `content_type` succeeds, but loading it back does not return that
field value — `load_manifest` infers `content_type` "image/jpeg" from the
item type, so the round trip is not the identity on every field tuple (the
empty `item_type` case breaks symmetrically through the filename-suffix
inference). -/
theorem manifest_roundtrip_cex :
    (load_manifest
      (write_manifest_doc 5 "/d/p.jpg" 7 "PENDING" "photo" "" 0 9)).1.content_type ≠
      "" := by
  decide

/-- Claim C8, amended: for every field tuple whose `item_type` and
`content_type` are nonempty (so the inference rules of `load_manifest` do not
fire) and whose epochs fit the serializer's 32-bit `unsigned long` cast,
loading the manifest written by `write_manifest_atomic` returns exactly the
written field values. -/
theorem manifest_roundtrip (seq : Nat) (filepath : String) (captured_epoch : Nat)
    (status item_type content_type : String) (upload_attempts : Int)
    (last_attempt_epoch : Nat)
    (hit : item_type ≠ "") (hct : content_type ≠ "")
    (hce : captured_epoch < 2 ^ 32) (hla : last_attempt_epoch < 2 ^ 32) :
    load_manifest (write_manifest_doc seq filepath captured_epoch status
      item_type content_type upload_attempts last_attempt_epoch) =
      ({ manifest_path := manifest_path_of seq
         filepath := filepath
         item_type := item_type
         content_type := content_type
         seq := seq
         captured_epoch := captured_epoch
         upload_attempts := upload_attempts
         last_attempt_epoch := last_attempt_epoch }, status) := by
  unfold load_manifest write_manifest_doc
  simp only [if_neg hit, if_neg hct, Nat.mod_eq_of_lt hce, Nat.mod_eq_of_lt hla]

theorem manifest_roundtrip_w :
    load_manifest (write_manifest_doc 4 "/x/y.jpg" 123 "PENDING" "photo"
      "image/jpeg" 1 77) =
      ({ manifest_path := manifest_path_of 4
         filepath := "/x/y.jpg"
         item_type := "photo"
         content_type := "image/jpeg"
         seq := 4
         captured_epoch := 123
         upload_attempts := 1
         last_attempt_epoch := 77 }, "PENDING") :=
  manifest_roundtrip 4 "/x/y.jpg" 123 "PENDING" "photo" "image/jpeg" 1 77
    (by decide) (by decide) (by norm_num) (by norm_num)

/-! ### Claim C9 -/

/-- Claim C9: `free_percent` is total over every storage report — with
`totalBytes = 0` it returns 0 instead of dividing by zero, and with a nonzero
total (and a report in range: `used ≤ total`, product below the `uint64`
wrap) it returns `(total - used) * 100 / total`, the free percentage
truncated to an integer (which is at most 100, so the `uint8_t` cast is
lossless). -/
theorem free_percent_total (total used : Nat) :
    free_percent 0 used = 0 ∧
    (total ≠ 0 → used ≤ total → (total - used) * 100 < 2 ^ 64 →
      free_percent total used = (total - used) * 100 / total) := by
  constructor
  · unfold free_percent
    rw [if_pos rfl]
  · intro htz hle hlt
    unfold free_percent
    rw [if_neg htz]
    have h1 : 2 ^ 64 + total - used = 2 ^ 64 + (total - used) := by omega
    have h2 : total - used < 2 ^ 64 := by
      have : total - used ≤ (total - used) * 100 := Nat.le_mul_of_pos_right _ (by norm_num)
      omega
    rw [h1, Nat.add_mod_left, Nat.mod_eq_of_lt h2, Nat.mod_eq_of_lt hlt]
    have h3 : (total - used) * 100 / total ≤ 100 := by
      have hm : (total - used) * 100 ≤ total * 100 :=
        Nat.mul_le_mul_right 100 (Nat.sub_le total used)
      calc (total - used) * 100 / total ≤ total * 100 / total :=
            Nat.div_le_div_right hm
        _ = 100 := by
            rw [Nat.mul_div_cancel_left 100 (Nat.pos_of_ne_zero htz)]
    exact Nat.mod_eq_of_lt (by omega)

theorem free_percent_total_w :
    free_percent 0 7 = 0 ∧ free_percent 1000000 950000 = 50000 * 100 / 1000000 :=
  ⟨(free_percent_total 3 7).1,
    by
      have h := (free_percent_total 1000000 950000).2 (by norm_num) (by norm_num)
        (by norm_num)
      simpa using h⟩

/-! ### Helper lemmas: the retention sweep -/

theorem load_manifest_doc_fields {doc : ManifestDoc} {item : PendingItem}
    (h : (load_manifest doc).1 = item) :
    item.seq = doc.seq ∧ item.captured_epoch = doc.captured_epoch ∧
    item.filepath = doc.filepath := by
  obtain ⟨h1, h2, h3, _, _, _⟩ := load_manifest_fields doc
  rw [h] at h1 h2 h3
  exact ⟨h1, h3, h2⟩

theorem retention_sweep_exit (fuel : Nat) :
    ∀ st : Dev, st.manifests.length < fuel →
      SD_MIN_FREE_PERCENT ≤
        free_percent (retention_sweep true fuel st).totalBytes
          (usedBytes (retention_sweep true fuel st)) ∨
      ∀ d ∈ (retention_sweep true fuel st).manifests, d.status ≠ "UPLOADED" := by
  induction fuel with
  | zero => intro st h; exact absurd h (Nat.not_lt_zero _)
  | succ fuel ih =>
    intro st hlen
    unfold retention_sweep
    by_cases hfree : free_percent st.totalBytes (usedBytes st) < SD_MIN_FREE_PERCENT
    · rw [if_pos hfree]
      cases hfind : find_oldest_uploaded true st.manifests with
      | none => exact Or.inr (find_oldest_uploaded_none hfind)
      | some item =>
        obtain ⟨⟨doc, hdoc, hcand⟩, hmin⟩ := find_oldest_uploaded_spec hfind
        obtain ⟨hstat, hload⟩ := uploaded_cand_some hcand
        obtain ⟨hseq, _, _⟩ := load_manifest_doc_fields hload
        have hlt : (st.manifests.filter (fun d => !(d.seq == item.seq))).length <
            st.manifests.length :=
          List.length_filter_lt_length_iff_exists.mpr
            ⟨doc, hdoc, by simp [hseq]⟩
        exact ih _ (by simpa using Nat.lt_of_lt_of_le hlt (Nat.lt_succ_iff.mp hlen))
    · rw [if_neg hfree]
      exact Or.inl (Nat.le_of_not_lt hfree)

theorem retention_sweep_preserves (fuel : Nat) :
    ∀ st : Dev, (st.manifests.map (fun d => d.seq)).Nodup →
      ((retention_sweep true fuel st).totalBytes = st.totalBytes ∧
        (retention_sweep true fuel st).capture_paused = st.capture_paused) ∧
      (∀ d ∈ (retention_sweep true fuel st).manifests, d ∈ st.manifests) ∧
      (∀ a ∈ (retention_sweep true fuel st).artifacts, a ∈ st.artifacts) ∧
      (∀ d ∈ st.manifests, d ∉ (retention_sweep true fuel st).manifests →
        d.status = "UPLOADED" ∧
        ∀ u ∈ (retention_sweep true fuel st).manifests, u.status = "UPLOADED" →
          older_than u.captured_epoch u.seq d.captured_epoch d.seq = false) ∧
      (∀ a ∈ st.artifacts, a ∉ (retention_sweep true fuel st).artifacts →
        ∃ m ∈ st.manifests, m.status = "UPLOADED" ∧ m.filepath = a.1) := by
  induction fuel with
  | zero =>
    intro st hnd
    exact ⟨⟨rfl, rfl⟩, fun d hd => hd, fun a ha => ha,
      fun d hd hnd' => absurd hd hnd', fun a ha hna => absurd ha hna⟩
  | succ fuel ih =>
    intro st hnd
    unfold retention_sweep
    by_cases hfree : free_percent st.totalBytes (usedBytes st) < SD_MIN_FREE_PERCENT
    · rw [if_pos hfree]
      cases hfind : find_oldest_uploaded true st.manifests with
      | none =>
        exact ⟨⟨rfl, rfl⟩, fun d hd => hd, fun a ha => ha,
          fun d hd hnd' => absurd hd hnd', fun a ha hna => absurd ha hna⟩
      | some item =>
        obtain ⟨⟨doc, hdoc, hcand⟩, hmin⟩ := find_oldest_uploaded_spec hfind
        obtain ⟨hstat, hload⟩ := uploaded_cand_some hcand
        obtain ⟨hseq, hepoch, hfp⟩ := load_manifest_doc_fields hload
        set st' : Dev :=
          { st with
            artifacts :=
              if art_exists st.artifacts item.filepath then
                art_remove st.artifacts item.filepath
              else st.artifacts
            manifests := st.manifests.filter (fun d => !(d.seq == item.seq)) }
          with hst'
        have hnd' : (st'.manifests.map (fun d => d.seq)).Nodup := by
          refine List.Nodup.sublist ?_ hnd
          exact List.Sublist.map _ (List.filter_sublist _)
        have hmans : ∀ d ∈ st'.manifests, d ∈ st.manifests := by
          intro d hd
          exact (List.mem_filter.mp hd).1
        have harts : ∀ a ∈ st'.artifacts, a ∈ st.artifacts := by
          intro a ha
          rw [hst'] at ha
          dsimp only at ha
          split_ifs at ha
          · exact (List.mem_filter.mp ha).1
          · exact ha
        have hdel_doc : ∀ d ∈ st.manifests, d ∉ st'.manifests → d = doc := by
          intro d hd hnd2
          have hseqd : d.seq = item.seq := by
            by_contra hne
            exact hnd2 (List.mem_filter.mpr ⟨hd, by simpa using hne⟩)
          exact List.inj_on_of_nodup_map hnd hd hdoc (by rw [hseqd, hseq])
        obtain ⟨⟨ih1a, ih1b⟩, ih2, ih3, ih4, ih5⟩ := ih st' hnd'
        refine ⟨⟨ih1a, ih1b⟩, ?_, ?_, ?_, ?_⟩
        · intro d hd
          exact hmans d (ih2 d hd)
        · intro a ha
          exact harts a (ih3 a ha)
        · intro d hd hnd2
          by_cases hd' : d ∈ st'.manifests
          · obtain ⟨hup, hmin'⟩ := ih4 d hd' hnd2
            exact ⟨hup, hmin'⟩
          · have hddoc : d = doc := hdel_doc d hd hd'
            subst hddoc
            refine ⟨hstat, ?_⟩
            intro u hu hup
            have hu_st : u ∈ st.manifests := hmans u (ih2 u hu)
            have hcu := uploaded_cand_of_status hup
            have hmin_u := hmin u hu_st (load_manifest u).1 hcu
            obtain ⟨hus, hue, _⟩ := load_manifest_doc_fields (rfl :
              (load_manifest u).1 = (load_manifest u).1)
            rw [hus, hue] at hmin_u
            rw [hseq, hepoch] at hmin_u
            exact hmin_u
        · intro a ha hna
          by_cases ha' : a ∈ st'.artifacts
          · obtain ⟨m, hm, hmup, hmfp⟩ := ih5 a ha' hna
            exact ⟨m, hmans m hm, hmup, hmfp⟩
          · have hfp_a : a.1 = item.filepath := by
              rw [hst'] at ha'
              dsimp only at ha'
              split_ifs at ha' with hex
              · unfold art_remove at ha'
                by_contra hne
                exact ha' (List.mem_filter.mpr ⟨ha, by simpa using hne⟩)
              · exact absurd ha ha'
            exact ⟨doc, hdoc, hstat, by rw [← hfp, ← hfp_a]⟩
    · rw [if_neg hfree]
      exact ⟨⟨rfl, rfl⟩, fun d hd => hd, fun a ha => ha,
        fun d hd hnd' => absurd hd hnd', fun a ha hna => absurd ha hna⟩

/-! ### Claim C3 -/

/-- Claim C3: when `enforce_retention` returns (SD available, one manifest
file per `seq`), either the free percentage has reached
`SD_MIN_FREE_PERCENT` or no UPLOADED manifest remains; the sweep deleted only
manifests of UPLOADED items — oldest first: no surviving UPLOADED manifest is
strictly older than a deleted one — and only artifact files belonging to
UPLOADED manifests; and afterwards `capture_paused` holds exactly when the
free percentage is below `SD_EMERGENCY_FREE_PERCENT`. -/
theorem retention_postcondition (st : Dev) (hsd : st.sd_ok = true)
    (hnd : (st.manifests.map (fun d => d.seq)).Nodup) :
    (SD_MIN_FREE_PERCENT ≤
        free_percent (enforce_retention st).totalBytes
          (usedBytes (enforce_retention st)) ∨
      ∀ d ∈ (enforce_retention st).manifests, d.status ≠ "UPLOADED") ∧
    (∀ d ∈ st.manifests, d ∉ (enforce_retention st).manifests →
      d.status = "UPLOADED" ∧
      ∀ u ∈ (enforce_retention st).manifests, u.status = "UPLOADED" →
        older_than u.captured_epoch u.seq d.captured_epoch d.seq = false) ∧
    (∀ a ∈ st.artifacts, a ∉ (enforce_retention st).artifacts →
      ∃ m ∈ st.manifests, m.status = "UPLOADED" ∧ m.filepath = a.1) ∧
    ((enforce_retention st).capture_paused = true ↔
      free_percent (enforce_retention st).totalBytes
        (usedBytes (enforce_retention st)) < SD_EMERGENCY_FREE_PERCENT) := by
  unfold enforce_retention
  rw [hsd]
  simp only [Bool.not_true, Bool.false_eq_true, if_false]
  by_cases hfree :
      SD_MIN_FREE_PERCENT ≤ free_percent st.totalBytes (usedBytes st)
  · rw [if_pos hfree]
    refine ⟨Or.inl hfree, ?_, ?_, ?_⟩
    · intro d hd hnd2; exact absurd hd hnd2
    · intro a ha hna; exact absurd ha hna
    · constructor
      · intro h; cases h
      · intro h
        exfalso
        have h' : free_percent st.totalBytes (usedBytes st) <
            SD_EMERGENCY_FREE_PERCENT := h
        unfold SD_MIN_FREE_PERCENT at hfree
        unfold SD_EMERGENCY_FREE_PERCENT at h'
        omega
  · rw [if_neg hfree]
    obtain ⟨⟨h1a, h1b⟩, h2, h3, h4, h5⟩ :=
      retention_sweep_preserves (st.manifests.length + 1) st hnd
    have hexit :=
      retention_sweep_exit (st.manifests.length + 1) st (Nat.lt_succ_self _)
    refine ⟨?_, h4, h5, ?_⟩
    · rcases hexit with hge | hnone
      · exact Or.inl hge
      · exact Or.inr hnone
    · exact decide_eq_true_iff

theorem retention_postcondition_w :
    (SD_MIN_FREE_PERCENT ≤
        free_percent (enforce_retention wret_state).totalBytes
          (usedBytes (enforce_retention wret_state)) ∨
      ∀ d ∈ (enforce_retention wret_state).manifests, d.status ≠ "UPLOADED") ∧
    (∀ d ∈ wret_state.manifests, d ∉ (enforce_retention wret_state).manifests →
      d.status = "UPLOADED" ∧
      ∀ u ∈ (enforce_retention wret_state).manifests, u.status = "UPLOADED" →
        older_than u.captured_epoch u.seq d.captured_epoch d.seq = false) ∧
    (∀ a ∈ wret_state.artifacts, a ∉ (enforce_retention wret_state).artifacts →
      ∃ m ∈ wret_state.manifests, m.status = "UPLOADED" ∧ m.filepath = a.1) ∧
    ((enforce_retention wret_state).capture_paused = true ↔
      free_percent (enforce_retention wret_state).totalBytes
        (usedBytes (enforce_retention wret_state)) <
        SD_EMERGENCY_FREE_PERCENT) :=
  retention_postcondition wret_state (by decide) (by decide)

/-! ### Helper lemmas: the forced-start paths of the audio tick -/

theorem audio_tick_photo_branch (st : Dev) (o : AudioOracle)
    (hok : st.audio_ok = true) (hr : o.read_ok = true) (hc : 0 < o.sample_count)
    (hrec : st.audio_recording = false)
    (hp : st.audio_photo_clip_pending = true) :
    audio_tick st o =
      (start_audio_recording { st with audio_photo_clip_pending := false } o
        o.sample_count st.audio_photo_clip_epoch
        (kAudioPrerollSamples + ms_to_samples AUDIO_PHOTO_CLIP_POST_MS)).2 := by
  unfold audio_tick
  rw [hok, hr, hrec, hp]
  simp only [Bool.not_true, Bool.false_eq_true, if_false, Bool.not_false, if_true,
    if_neg (Nat.pos_iff_ne_zero.mp hc)]

theorem audio_tick_heartbeat_branch (st : Dev) (o : AudioOracle)
    (hok : st.audio_ok = true) (hr : o.read_ok = true) (hc : 0 < o.sample_count)
    (hrec : st.audio_recording = false)
    (hp : st.audio_photo_clip_pending = false)
    (hh : st.audio_heartbeat_pending = true) :
    audio_tick st o =
      (start_audio_recording { st with audio_heartbeat_pending := false } o
        o.sample_count o.now_epoch
        (kAudioPrerollSamples + ms_to_samples AUDIO_HEARTBEAT_DURATION_MS)).2 := by
  unfold audio_tick
  rw [hok, hr, hrec, hp, hh]
  simp only [Bool.not_true, Bool.false_eq_true, if_false, Bool.not_false, if_true,
    if_neg (Nat.pos_iff_ne_zero.mp hc)]

/-- `start_audio_recording` never touches the two forced-clip pending flags,
and on every failing path it leaves the device not recording with the
manifest store and the artifact files unchanged. -/
theorem start_audio_recording_flags (st : Dev) (o : AudioOracle)
    (count se fs : Nat) :
    ((start_audio_recording st o count se fs).2.audio_photo_clip_pending =
        st.audio_photo_clip_pending ∧
      (start_audio_recording st o count se fs).2.audio_heartbeat_pending =
        st.audio_heartbeat_pending) ∧
    ((start_audio_recording st o count se fs).2.audio_recording = false →
      (start_audio_recording st o count se fs).2.manifests = st.manifests ∧
      (start_audio_recording st o count se fs).2.artifacts = st.artifacts) := by
  unfold start_audio_recording finish_audio_recording
  split_ifs <;>
    simp_all

/-- A successful `start_audio_recording` is recording, with
`audio_start_epoch` set to the preroll-adjusted start epoch (falling back to
the tick's wall clock when the requested epoch is zero). -/
theorem start_audio_recording_success (st : Dev) (o : AudioOracle)
    (count se fs : Nat)
    (h : (start_audio_recording st o count se fs).1 = true) :
    (start_audio_recording st o count se fs).2.audio_recording = true ∧
    (start_audio_recording st o count se fs).2.audio_start_epoch =
      adjust_start_epoch (if se > 0 then se else o.now_epoch) := by
  unfold start_audio_recording at h ⊢
  split_ifs at h ⊢ <;> simp_all

/-- A failed `start_audio_recording` on an idle device leaves it idle. -/
theorem start_audio_recording_fail_not_rec (st : Dev) (o : AudioOracle)
    (count se fs : Nat) (hrec : st.audio_recording = false) :
    (start_audio_recording st o count se fs).1 = false →
    (start_audio_recording st o count se fs).2.audio_recording = false := by
  unfold start_audio_recording finish_audio_recording
  split_ifs <;> simp_all

/-- Starting from an idle device, `start_audio_recording` ends up recording
only when it returned success. -/
theorem start_audio_recording_rec_of (st : Dev) (o : AudioOracle)
    (count se fs : Nat) (hrec : st.audio_recording = false)
    (h : (start_audio_recording st o count se fs).2.audio_recording = true) :
    (start_audio_recording st o count se fs).1 = true := by
  cases hres : (start_audio_recording st o count se fs).1 with
  | true => rfl
  | false =>
    have hnr := start_audio_recording_fail_not_rec st o count se fs hrec hres
    exact absurd (hnr.symm.trans h) (by decide)

/-! ### Claim C10 -/

/-- Claim C10: on every audio tick that services a forced start (photo-clip,
or heartbeat with no photo-clip pending), the serviced pending flag is
consumed before `start_audio_recording` is attempted — it is down after the
tick whether or not the start succeeded (the other flag is untouched), so a
failed forced start is never retried; and if the tick ends not recording (the
start failed at the SD/pause guard, folder creation, file open, or the first
frame write), no manifest and no artifact file was created. -/
theorem forced_start_single_shot :
    ∀ (st : Dev) (o : AudioOracle),
      st.audio_ok = true → o.read_ok = true → 0 < o.sample_count →
      st.audio_recording = false →
      (st.audio_photo_clip_pending = true ∨
        (st.audio_photo_clip_pending = false ∧
          st.audio_heartbeat_pending = true)) →
      (audio_tick st o).audio_photo_clip_pending = false ∧
      (audio_tick st o).audio_heartbeat_pending =
        (st.audio_heartbeat_pending && st.audio_photo_clip_pending) ∧
      ((audio_tick st o).audio_recording = false →
        (audio_tick st o).manifests = st.manifests ∧
        (audio_tick st o).artifacts = st.artifacts) := by
  intro st o hok hr hc hrec hflag
  rcases hflag with hp | ⟨hp, hh⟩
  · rw [audio_tick_photo_branch st o hok hr hc hrec hp]
    obtain ⟨⟨hf1, hf2⟩, hfail⟩ :=
      start_audio_recording_flags { st with audio_photo_clip_pending := false } o
        o.sample_count st.audio_photo_clip_epoch
        (kAudioPrerollSamples + ms_to_samples AUDIO_PHOTO_CLIP_POST_MS)
    refine ⟨by rw [hf1], ?_, hfail⟩
    rw [hf2, hp, Bool.and_true]
  · rw [audio_tick_heartbeat_branch st o hok hr hc hrec hp hh]
    obtain ⟨⟨hf1, hf2⟩, hfail⟩ :=
      start_audio_recording_flags { st with audio_heartbeat_pending := false } o
        o.sample_count o.now_epoch
        (kAudioPrerollSamples + ms_to_samples AUDIO_HEARTBEAT_DURATION_MS)
    refine ⟨by rw [hf1]; exact hp, ?_, hfail⟩
    rw [hf2, hp, Bool.and_false]

theorem forced_start_single_shot_w :
    (audio_tick w10_state hb_tick_oracle).audio_photo_clip_pending = false ∧
    (audio_tick w10_state hb_tick_oracle).audio_heartbeat_pending =
      (w10_state.audio_heartbeat_pending && w10_state.audio_photo_clip_pending) ∧
    ((audio_tick w10_state hb_tick_oracle).audio_recording = false →
      (audio_tick w10_state hb_tick_oracle).manifests = w10_state.manifests ∧
      (audio_tick w10_state hb_tick_oracle).artifacts = w10_state.artifacts) :=
  forced_start_single_shot w10_state hb_tick_oracle (by decide) (by decide)
    (by decide) (by decide) (Or.inl (by decide))

/-! ### Claim C7 -/

set_option maxRecDepth 100000 in
/-- Claim C7, counterexample to the claim as stated: a heartbeat-forced
recording triggered at wall clock 1000 and run to its forced stop writes a
manifest whose `captured_at_epoch` is 999, not the epoch current at the
triggering tick (1000): `start_audio_recording` applies the preroll
adjustment to the heartbeat's epoch as well. -/
theorem heartbeat_epoch_cex :
    (store_get hb_run.manifests 0).map (fun d => d.captured_epoch) = some 999 ∧
    hb_tick_oracle.now_epoch = 1000 := by
  constructor
  · rfl
  · rfl

/-- Claim C7, amended: the heartbeat branch passes the tick's current epoch
(not the photo epoch) to `start_audio_recording`, which stores
`adjust_start_epoch` of it — the current epoch minus the preroll seconds
whenever the epoch exceeds them — and a kept finalization writes the manifest
with exactly that stored `audio_start_epoch`; so the heartbeat manifest's
`captured_at_epoch` is the triggering tick's epoch with the preroll
adjustment applied. -/
theorem heartbeat_epoch_adjusted :
    (∀ (st : Dev) (o : AudioOracle),
      st.audio_ok = true → o.read_ok = true → 0 < o.sample_count →
      st.audio_recording = false → st.audio_photo_clip_pending = false →
      st.audio_heartbeat_pending = true →
      (audio_tick st o).audio_recording = true →
      (audio_tick st o).audio_start_epoch = adjust_start_epoch o.now_epoch) ∧
    (∀ e : Nat, AUDIO_PREROLL_MS / 1000 < e →
      adjust_start_epoch e = e - AUDIO_PREROLL_MS / 1000) ∧
    (∀ st : Dev, st.audio_recording = true → st.audio_filepath ≠ "" →
      AUDIO_MIN_SEC * AUDIO_SAMPLE_RATE ≤ st.audio_samples_written →
      (finish_audio_recording st true).manifests =
        write_manifest_atomic st.manifests st.audio_seq st.audio_filepath
          st.audio_start_epoch "PENDING" "audio" "audio/wav" 0 0) := by
  refine ⟨?_, ?_, ?_⟩
  · intro st o hok hr hc hrec hp hh hpost
    rw [audio_tick_heartbeat_branch st o hok hr hc hrec hp hh] at hpost ⊢
    have hsucc :=
      start_audio_recording_rec_of { st with audio_heartbeat_pending := false } o
        o.sample_count o.now_epoch
        (kAudioPrerollSamples + ms_to_samples AUDIO_HEARTBEAT_DURATION_MS)
        hrec hpost
    have hep :=
      (start_audio_recording_success { st with audio_heartbeat_pending := false }
        o o.sample_count o.now_epoch
        (kAudioPrerollSamples + ms_to_samples AUDIO_HEARTBEAT_DURATION_MS)
        hsucc).2
    rw [hep]
    by_cases h0 : o.now_epoch > 0
    · rw [if_pos h0]
    · rw [if_neg h0]
  · intro e he
    have h1 : AUDIO_PREROLL_MS / 1000 = 1 := rfl
    rw [h1] at he ⊢
    simp only [adjust_start_epoch]
    rw [h1, if_neg Nat.one_ne_zero, if_pos he]
  · intro st hrec hfp hmin
    unfold finish_audio_recording
    rw [hrec]
    simp only [Bool.not_true, Bool.false_eq_true, if_false]
    rw [if_neg (Nat.not_lt.mpr hmin)]
    simp only [Bool.not_true, Bool.false_or]
    rw [if_neg (by simpa using hfp)]

theorem heartbeat_epoch_adjusted_w :
    ((audio_tick hb_state hb_tick_oracle).audio_start_epoch =
      adjust_start_epoch hb_tick_oracle.now_epoch) ∧
    adjust_start_epoch 1000 = 1000 - AUDIO_PREROLL_MS / 1000 ∧
    (finish_audio_recording w7_fin true).manifests =
      write_manifest_atomic w7_fin.manifests w7_fin.audio_seq
        w7_fin.audio_filepath w7_fin.audio_start_epoch "PENDING" "audio"
        "audio/wav" 0 0 :=
  ⟨heartbeat_epoch_adjusted.1 hb_state hb_tick_oracle (by decide) (by decide)
      (by decide) (by decide) (by decide) (by decide) (by rfl),
    heartbeat_epoch_adjusted.2.1 1000 (by decide),
    heartbeat_epoch_adjusted.2.2 w7_fin (by decide) (by decide) (by decide)⟩

/-! ### Claim C6 -/

/-- Claim C6, counterexample to the claim as stated: in the first loop
iteration after boot, run at uptime 300000 ms (both the 30 s capture interval
and the 5 min heartbeat interval have elapsed), the photo capture raises the
photo-clip flag, and the heartbeat step — which runs later in the same
iteration and does not inspect `audio_photo_clip_pending` — raises the
heartbeat flag while the photo-clip is still pending.  `mid6` is exactly the
state `loop_iter` hands to `heartbeat_step` on this reachable trace. -/
theorem heartbeat_collision_cex :
    mid6.audio_photo_clip_pending = true ∧
    mid6.audio_heartbeat_pending = false ∧
    mid6.audio_recording = false ∧
    (heartbeat_step mid6 300000).audio_heartbeat_pending = true := by
  refine ⟨rfl, rfl, rfl, rfl⟩

/-- Claim C6, amended: in every state, the photo capture path raises the
photo-clip pending flag only when audio is available and not recording, and
the heartbeat step raises the heartbeat pending flag only when audio is
available, not recording, and no heartbeat is already pending — but
regardless of whether a photo-clip is pending. -/
theorem forced_flag_raise_conditions :
    (∀ (st : Dev) (o : CaptureOracle),
      (capture_and_save st o).2.audio_photo_clip_pending = true →
      st.audio_photo_clip_pending = true ∨
        (st.audio_recording = false ∧ st.audio_ok = true)) ∧
    (∀ (st : Dev) (now : Nat),
      (heartbeat_step st now).audio_heartbeat_pending = true →
      st.audio_heartbeat_pending = true ∨
        (st.audio_recording = false ∧ st.audio_heartbeat_pending = false ∧
          st.audio_ok = true)) := by
  constructor
  · intro st o h
    cases hok : st.audio_ok with
    | false =>
      left
      unfold capture_and_save at h
      split_ifs at h <;> first | exact h | simp_all
    | true =>
      cases hrec : st.audio_recording with
      | false => exact Or.inr ⟨by rfl, by rfl⟩
      | true =>
        left
        unfold capture_and_save at h
        split_ifs at h <;> first | exact h | simp_all
  · intro st now h
    unfold heartbeat_step at h
    split_ifs at h with hcond
    · simp only [Bool.and_eq_true, Bool.not_eq_true', decide_eq_true_eq] at hcond
      exact Or.inr ⟨hcond.1.1.2, hcond.1.2, hcond.1.1.1⟩
    · exact Or.inl h

theorem forced_flag_raise_conditions_w :
    (boot_state.audio_photo_clip_pending = true ∨
      (boot_state.audio_recording = false ∧ boot_state.audio_ok = true)) ∧
    (boot_state.audio_heartbeat_pending = true ∨
      (boot_state.audio_recording = false ∧
        boot_state.audio_heartbeat_pending = false ∧
        boot_state.audio_ok = true)) :=
  ⟨forced_flag_raise_conditions.1 boot_state o6_capture (by decide),
    forced_flag_raise_conditions.2 boot_state 300000 (by decide)⟩
